import Mathlib

/-
Verification development for the p5 OpenGL shader layer
(`p5/opengl/shader.py`): the GLSL source preprocessor
`preprocess_shader`, the `Shader` wrapper, and the `ShaderProgram`
wrapper with its uniform-binding map.

Python semantics are embedded shallowly:
  - strings are `String` (lists of characters);
  - the two regular-expression shapes used by the preprocessor
    (`re_id` and `re_fn`, both alternations of literal words guarded
    by lookbehind/lookahead) are embedded as a direct left-to-right
    scan-and-replace over the character list, mirroring `re.sub`;
  - raised exceptions become an explicit error type `Err`
    (`KeyError` on the version table ↦ `unknownVersion`, `TypeError`
    for a bad stage ↦ `unsupportedStage`, `NameError` in `sid`
    ↦ `notCompiled`, `KeyError` on the uniform-function map
    ↦ `unsupportedUniformType`, `KeyError` on the uniform dict
    ↦ `unknownUniform`);
  - results of native GL calls (`glCreateShader` handles, uniform
    locations, compile logs) are external inputs passed in as
    arguments; `print` output is collected in a returned list.
-/

namespace P5Shader

/-- Characters of the regex class `[0-9A-Z_a-z]` used by `re_id` and
`re_fn` in `preprocess_shader` (word characters). -/
def isWordChar (c : Char) : Bool :=
  ('0' ≤ c && c ≤ '9') || ('A' ≤ c && c ≤ 'Z') || c == '_' || ('a' ≤ c && c ≤ 'z')

/-- Characters matched by the regex class `\s` on the ASCII shader
sources handled here: space, tab, newline, carriage return, vertical
tab, form feed. -/
def isSpaceChar (c : Char) : Bool :=
  c == ' ' || c == '\t' || c == '\n' || c == '\r' ||
    c == Char.ofNat 11 || c == Char.ofNat 12

/-- Match a literal word at the head of the input; on success return
the remaining characters. -/
def matchLit : List Char → List Char → Option (List Char)
  | [], s => some s
  | _ :: _, [] => none
  | a :: w, c :: s => if a == c then matchLit w s else none

/-- The lookahead `\s*\(` of `re_fn`: some (possibly empty) run of
whitespace followed by an opening parenthesis. -/
def parenAhead : List Char → Bool
  | [] => false
  | c :: s => if c == '(' then true else if isSpaceChar c then parenAhead s else false

/-- The negative lookahead of `re_id`: the match must not be followed
by a word character, nor by `\s*\(`. -/
def idLookahead (s : List Char) : Bool :=
  match s with
  | [] => true
  | c :: _ => !(isWordChar c) && !(parenAhead s)

/-- Try the alternatives of the regex group in order at the current
position, as `re` does: an alternative succeeds when its literal text
matches here and the lookahead accepts the rest.  On success return
the final character of the matched text (the character the next
lookbehind inspects) and the remaining input. -/
def tryWords (look : List Char → Bool) : List (List Char) → List Char → Option (Char × List Char)
  | [], _ => none
  | w :: ws, s =>
    match matchLit w s with
    | some rest => if look rest then some (w.getLastD ' ', rest) else tryWords look ws s
    | none => tryWords look ws s

/-- One `re.sub` pass: scan left to right; at a position whose
preceding character (in the original text) is not a word character
(the lookbehind of both `re_id` and `re_fn`), try the alternatives;
on a match emit the replacement and resume after the matched text,
otherwise copy one character.  `fuel` bounds the recursion; each step
consumes at least one character, so `fuel = s.length` is exact. -/
def subRunAux (look : List Char → Bool) (words : List (List Char)) (repl : List Char) :
    Nat → Option Char → List Char → List Char
  | 0, _, s => s
  | Nat.succ fuel, prev, s =>
    match s with
    | [] => []
    | c :: rest =>
      let behindOk := match prev with
        | none => true
        | some p => !(isWordChar p)
      match (if behindOk then tryWords look words s else none) with
      | some (lastc, rest2) => repl ++ subRunAux look words repl fuel (some lastc) rest2
      | none => c :: subRunAux look words repl fuel (some c) rest

/-- Full substitution over one line, as `re.sub(pattern, repl, line)`. -/
def subRun (look : List Char → Bool) (words : List (List Char)) (repl : List Char)
    (s : List Char) : List Char :=
  subRunAux look words repl s.length none s

/-- The two regex templates of `preprocess_shader`: `re_id` rewrites
whole identifiers not in call position, `re_fn` rewrites identifiers
in call position. -/
inductive PatternKind where
  | reId
  | reFn
  deriving DecidableEq

/-- A search/replace rule: template kind, the alternatives of the
formatted group, and the replacement text. -/
structure Rule where
  kind : PatternKind
  words : List String
  repl : String

/-- Apply one rule to one line. -/
def applyRule (line : List Char) (r : Rule) : List Char :=
  match r.kind with
  | PatternKind.reId => subRun idLookahead (r.words.map String.data) r.repl.data line
  | PatternKind.reFn => subRun parenAhead (r.words.map String.data) r.repl.data line

/-- The vertex-stage rules, in source order. -/
def vertexPatterns : List Rule :=
  [ ⟨PatternKind.reId, ["varying"], "out"⟩,
    ⟨PatternKind.reId, ["attribute"], "in"⟩,
    ⟨PatternKind.reId, ["texture"], "texMap"⟩,
    ⟨PatternKind.reFn, ["texture2DRect", "texture2D", "texture3D", "textureCube"], "texture"⟩ ]

/-- The fragment-stage rules, in source order. -/
def fragmentPatterns : List Rule :=
  [ ⟨PatternKind.reId, ["varying", "attribute"], "in"⟩,
    ⟨PatternKind.reId, ["texture"], "texMap"⟩,
    ⟨PatternKind.reFn, ["texture2DRect", "texture2D", "texture3D", "textureCube"], "texture"⟩,
    ⟨PatternKind.reId, ["gl_FragColor"], "_fragColor"⟩ ]

/-- The loop body `for regex, search, replace in patterns: new_line = re.sub(...)`. -/
def rewriteLine (patterns : List Rule) (line : List Char) : List Char :=
  patterns.foldl applyRule line

/-- Python `str.split(sep)` for a one-character separator: `""` splits
to `[""]`, a trailing separator yields a trailing empty piece. -/
def splitNl : List Char → List (List Char)
  | [] => [[]]
  | c :: rest =>
    let r := splitNl rest
    if c == '\n' then [] :: r
    else
      match r with
      | [] => [[c]]
      | l :: ls => (c :: l) :: ls

/-- Python substring test `pat in s`. -/
def containsSub (pat : List Char) : List Char → Bool
  | [] => pat.isEmpty
  | c :: rest => (matchLit pat (c :: rest)).isSome || containsSub pat rest

/-- Errors of the shader layer, one constructor per distinct Python
exception site. -/
inductive Err where
  | unknownVersion
  | unsupportedStage
  | notCompiled
  | unsupportedUniformType
  | unknownUniform
  deriving DecidableEq

/-- The `GLSL_VERSIONS` table. -/
def GLSL_VERSIONS : List (String × Nat) :=
  [("2.0", 110), ("2.1", 120), ("3.0", 130), ("3.1", 140),
   ("3.2", 150), ("3.3", 330), ("4.0", 400), ("4.1", 410),
   ("4.2", 420), ("4.3", 430), ("4.4", 440), ("4.5", 450)]

/-- Dictionary lookup `GLSL_VERSIONS[open_gl_version]`. -/
def lookupVersion (label : String) : Option Nat :=
  (GLSL_VERSIONS.find? (fun p => p.1 == label)).map (fun p => p.2)

/-- The accumulation loop of `preprocess_shader`:
`for line in shader_source.split('\n'): processed_shader += new_line + '\n'`. -/
def processLines (patterns : List Rule) (shader_source : String) (acc : String) : String :=
  (splitNl shader_source.data).foldl
    (fun acc line => acc ++ String.mk (rewriteLine patterns line) ++ "\n") acc

/-- The preprocessor `preprocess_shader(shader_source, shader_type, open_gl_version)`. -/
def preprocess_shader (shader_source shader_type open_gl_version : String) : Except Err String :=
  match lookupVersion open_gl_version with
  | none => Except.error Err.unknownVersion
  | some target =>
    if containsSub "#version".data shader_source.data then
      Except.ok shader_source
    else
      let processed := "#version " ++ toString target ++ "\n"
      if target < 130 then
        Except.ok (processed ++ shader_source)
      else if shader_type = "vertex" then
        Except.ok (processLines vertexPatterns shader_source processed)
      else if shader_type = "fragment" then
        Except.ok (processLines fragmentPatterns shader_source
          (processed ++ "out vec4 _fragColor;"))
      else
        Except.error Err.unsupportedStage

/-- Stage patterns selected by `preprocess_shader` for the two
supported stages (helper used to state stage-generic properties). -/
def stagePatterns (shader_type : String) : List Rule :=
  if shader_type = "vertex" then vertexPatterns else fragmentPatterns

/-- The extra declaration appended for the fragment stage only. -/
def stageExtra (shader_type : String) : String :=
  if shader_type = "fragment" then "out vec4 _fragColor;" else ""

/-- Concatenation of a list of strings. -/
def concatLines : List String → String
  | [] => ""
  | l :: ls => l ++ concatLines ls

/-- The code's line output: every rewritten line followed by a
newline character. -/
def terminatedLines (patterns : List Rule) (shader_source : String) : String :=
  concatLines ((splitNl shader_source.data).map
    (fun l => String.mk (rewriteLine patterns l) ++ "\n"))

/-- Stated from the spec's words, for comparison with
`preprocess_shader`: a synthesized header line, the stage-specific
extra declaration, and the rewritten source lines joined by newlines
(`String.intercalate`, so nothing after the last line). -/
def specJoinedOutput (shader_type : String) (target : Nat) (shader_source : String) : String :=
  "#version " ++ toString target ++ "\n" ++ stageExtra shader_type ++
    String.intercalate "\n" ((splitNl shader_source.data).map
      (fun l => String.mk (rewriteLine (stagePatterns shader_type) l)))

/-- The constant `GL_VERTEX_SHADER` (0x8B31). -/
def GL_VERTEX_SHADER : Nat := 35633

/-- The constant `GL_FRAGMENT_SHADER` (0x8B30). -/
def GL_FRAGMENT_SHADER : Nat := 35632

/-- The class attribute `Shader._supported_shader_types`. -/
def supported_shader_types : List (String × Nat) :=
  [("vertex", GL_VERTEX_SHADER), ("fragment", GL_FRAGMENT_SHADER)]

/-- The attributes of a `Shader` object: `self.kind`, `self.source`,
`self._id` (`None` until a compile assigns a GL handle). -/
structure ShaderState where
  kind : String
  source : String
  shaderId : Option Nat
  deriving DecidableEq

/-- The constructor `Shader.__init__(source, kind, version, preprocess)`:
with preprocessing it stores the preprocessed source (propagating any
preprocessing exception); without it, it stores the source as given
and performs no stage check. -/
def shaderInit (source kind version : String) (preprocessFlag : Bool) : Except Err ShaderState :=
  if preprocessFlag then
    match preprocess_shader source kind version with
    | Except.error e => Except.error e
    | Except.ok processed => Except.ok ⟨kind, processed, none⟩
  else
    Except.ok ⟨kind, source, none⟩

/-- The accessor `Shader.sid`.  Python tests `if self._id:`, which is
falsy both for `None` and for the handle `0`; otherwise it raises
`NameError` (modelled as `Err.notCompiled`). -/
def shaderSid (s : ShaderState) : Except Err Nat :=
  match s.shaderId with
  | none => Except.error Err.notCompiled
  | some i => if i = 0 then Except.error Err.notCompiled else Except.ok i

/-- The method `Shader.compile()`.  The lookup
`self._supported_shader_types[self.kind]` raises `KeyError` before
`self._id` is assigned; otherwise `self._id` is set to the handle
returned by `glCreateShader` (an external input here).  The module
flag `debug` is `True`, so the diagnostic branch always runs: when
the info log obtained from the driver (external input `glLog`) is
non-empty, the source and the log are printed; the commented-out
`raise` means no exception is thrown for a non-empty log.  Returns
the new object state and, on success, the printed lines. -/
def shaderCompile (s : ShaderState) (glHandle : Nat) (glLog : String) :
    ShaderState × Except Err (List String) :=
  match supported_shader_types.find? (fun p => p.1 == s.kind) with
  | none => (s, Except.error Err.unsupportedStage)
  | some _ =>
    let s2 : ShaderState := { s with shaderId := some glHandle }
    let printed := if 0 < glLog.length then [s2.source, glLog] else []
    (s2, Except.ok printed)

/-- The tags of the functions stored in `_uniform_function_map`
(`_uvec4` and `_umat4`). -/
inductive UniformFn where
  | uvec4
  | umat4
  deriving DecidableEq

/-- The module table `_uniform_function_map`. -/
def uniform_function_map : List (String × UniformFn) :=
  [("vec4", UniformFn.uvec4), ("mat4", UniformFn.umat4)]

/-- The namedtuple `ShaderUniform = ('name', 'uid', 'function')`. -/
structure ShaderUniform where
  name : String
  uid : Int
  function : UniformFn
  deriving DecidableEq

/-- The attributes of a `ShaderProgram`: `self._id` (the GL program
handle) and the dict `self._uniforms`, modelled as an association
list with Python-dict insert-or-overwrite semantics. -/
structure ProgramState where
  pid : Nat
  uniforms : List (String × ShaderUniform)
  deriving DecidableEq

/-- Python dict assignment `d[k] = v`: overwrite an existing entry in
place or append a new one. -/
def dictInsert : List (String × ShaderUniform) → String → ShaderUniform →
    List (String × ShaderUniform)
  | [], k, v => [(k, v)]
  | (k2, v2) :: rest, k, v =>
    if k2 == k then (k, v) :: rest else (k2, v2) :: dictInsert rest k v

/-- The method `ShaderProgram.add_uniform(uniform_name, dtype)`.  The
lookup `_uniform_function_map[dtype]` raises `KeyError` (modelled as
`Err.unsupportedUniformType`) before the dict is touched; the uniform
location returned by `glGetUniformLocation` is an external input.
Returns the new object state and the error, if any. -/
def add_uniform (p : ProgramState) (uniform_name dtype : String) (glLocation : Int) :
    ProgramState × Option Err :=
  match uniform_function_map.find? (fun q => q.1 == dtype) with
  | none => (p, some Err.unsupportedUniformType)
  | some e =>
    ({ p with uniforms := dictInsert p.uniforms uniform_name ⟨uniform_name, glLocation, e.2⟩ },
      none)

/-- The GL call issued by `update_uniform`: which update function ran,
with which location and which data.  The data is forwarded verbatim
(never inspected), modelled as a list of rationals. -/
structure GLUniformCall where
  function : UniformFn
  uid : Int
  data : List Rat
  deriving DecidableEq

/-- The method `ShaderProgram.update_uniform(uniform_name, data)`.
The lookup `self._uniforms[uniform_name]` raises `KeyError` (modelled
as `Err.unknownUniform`); on success `uniform.function(uniform.uid,
data)` is invoked, returned here as the issued `GLUniformCall`.  The
dict itself is never modified. -/
def update_uniform (p : ProgramState) (uniform_name : String) (data : List Rat) :
    ProgramState × Except Err GLUniformCall :=
  match p.uniforms.find? (fun q => q.1 == uniform_name) with
  | none => (p, Except.error Err.unknownUniform)
  | some e => (p, Except.ok ⟨e.2.function, e.2.uid, data⟩)

end P5Shader

deriving instance DecidableEq for Except

namespace P5Shader

/-- Unfolding of the accumulation loop of `preprocess_shader`: folding
the lines into an accumulator equals appending the concatenation of
the rewritten, newline-terminated lines. -/
theorem foldl_lines_eq_join (pats : List Rule) (ls : List (List Char)) (acc : String) :
    ls.foldl (fun a line => a ++ String.mk (rewriteLine pats line) ++ "\n") acc
      = acc ++ concatLines (ls.map (fun l => String.mk (rewriteLine pats l) ++ "\n")) := by
  induction ls generalizing acc with
  | nil => simp [concatLines, String.append_empty]
  | cons l rest ih =>
    simp only [List.foldl_cons, List.map_cons, concatLines]
    rw [ih]
    simp [String.append_assoc]

/-- The loop of `preprocess_shader` in closed form. -/
theorem processLines_eq (pats : List Rule) (src acc : String) :
    processLines pats src acc = acc ++ terminatedLines pats src := by
  unfold processLines terminatedLines
  exact foldl_lines_eq_join pats (splitNl src.data) acc

/-- A non-empty string has positive length. -/
theorem stringLengthPos (t : String) (h : t ≠ "") : 0 < t.length := by
  cases t with
  | mk l =>
    cases l with
    | nil => exact absurd rfl h
    | cons c cs => simp [String.length]

/-- C1 counterexample: the claim quantifies over every target version
label, but the version-table lookup happens before the opt-out check,
so an unknown label ("9.9") makes `preprocess_shader` fail even
though the source contains a version marker, instead of returning the
source unchanged. -/
theorem preprocess_versioned_unknown_label_cex :
    containsSub "#version".data ("#version 110").data = true ∧
    preprocess_shader "#version 110" "vertex" "9.9" = Except.error Err.unknownVersion ∧
    preprocess_shader "#version 110" "vertex" "9.9" ≠ Except.ok "#version 110" := by
  refine ⟨rfl, rfl, ?_⟩
  decide

/-- C1 (amended): for every source text containing the substring
"#version" anywhere, and every target version label that is present
in the VersionTable, `preprocess_shader` returns the source text
unchanged, for every stage argument. -/
theorem preprocess_versioned_source_unchanged (src stage label : String) (v : Nat)
    (hlab : lookupVersion label = some v)
    (hver : containsSub "#version".data src.data = true) :
    preprocess_shader src stage label = Except.ok src := by
  unfold preprocess_shader
  rw [hlab]
  simp [hver]

/-- C1 witness: a versioned source, a table label and an arbitrary
stage string. -/
theorem preprocess_versioned_source_unchanged_witness :
    lookupVersion "3.3" = some 330 ∧
    containsSub "#version".data ("void main(){} // #version note").data = true ∧
    preprocess_shader "void main(){} // #version note" "geometry" "3.3"
      = Except.ok "void main(){} // #version note" :=
  ⟨rfl, rfl, preprocess_versioned_source_unchanged _ "geometry" _ 330 rfl rfl⟩

/-- C2: for every target label resolving to a token strictly below
130 and every source without a version marker, `preprocess_shader`
returns exactly the header line followed by the source verbatim, for
every stage argument. -/
theorem preprocess_version_floor (src stage label : String) (v : Nat)
    (hlab : lookupVersion label = some v) (hlt : v < 130)
    (hver : containsSub "#version".data src.data = false) :
    preprocess_shader src stage label
      = Except.ok ("#version " ++ toString v ++ "\n" ++ src) := by
  unfold preprocess_shader
  rw [hlab]
  simp [hver, hlt]

/-- C2 witness: label "2.0" resolves to 110 < 130; the output is the
header plus the untouched source, even for an unsupported stage. -/
theorem preprocess_version_floor_witness :
    lookupVersion "2.0" = some 110 ∧ 110 < 130 ∧
    containsSub "#version".data ("varying vec4 texture;").data = false ∧
    preprocess_shader "varying vec4 texture;" "geometry" "2.0"
      = Except.ok ("#version " ++ toString 110 ++ "\n" ++ "varying vec4 texture;") :=
  ⟨rfl, by decide, rfl, preprocess_version_floor _ "geometry" _ 110 rfl (by decide) rfl⟩

/-- C6: for every source and stage, a target version label absent
from the VersionTable makes `preprocess_shader` fail with the
unknown-version error. -/
theorem preprocess_unknown_version (src stage label : String)
    (hlab : lookupVersion label = none) :
    preprocess_shader src stage label = Except.error Err.unknownVersion := by
  unfold preprocess_shader
  rw [hlab]

/-- C6 witness: label "9.9" is not in the table. -/
theorem preprocess_unknown_version_witness :
    lookupVersion "9.9" = none ∧
    preprocess_shader "void main(){}" "vertex" "9.9" = Except.error Err.unknownVersion :=
  ⟨rfl, preprocess_unknown_version "void main(){}" "vertex" "9.9" rfl⟩

/-- C5 counterexample: the claim fails in two ways.  A source that
already contains a version marker makes `preprocess_shader` return
successfully even for stage "geometry"; and constructing a Shader
with stage "geometry" and preprocessing skipped performs no stage
check at all and succeeds. -/
theorem shader_geometry_stage_cex :
    preprocess_shader "#version 110" "geometry" "3.3" = Except.ok "#version 110" ∧
    shaderInit "void main(){}" "geometry" "3.3" false
      = Except.ok ⟨"geometry", "void main(){}", none⟩ :=
  ⟨rfl, rfl⟩

/-- C5 (amended): for every source text without a version marker and
every stage other than vertex and fragment, `preprocess_shader` with
label "3.3" fails with the unsupported-stage error, and constructing
a Shader with preprocessing enabled propagates that error; when
preprocessing is skipped, construction performs no stage check and
succeeds. -/
theorem preprocess_unsupported_stage (src stage : String)
    (hver : containsSub "#version".data src.data = false)
    (h1 : stage ≠ "vertex") (h2 : stage ≠ "fragment") :
    preprocess_shader src stage "3.3" = Except.error Err.unsupportedStage ∧
    shaderInit src stage "3.3" true = Except.error Err.unsupportedStage ∧
    shaderInit src stage "3.3" false = Except.ok ⟨stage, src, none⟩ := by
  have hpre : preprocess_shader src stage "3.3" = Except.error Err.unsupportedStage := by
    unfold preprocess_shader
    rw [show lookupVersion "3.3" = some 330 from rfl]
    simp [hver, h1, h2, show ¬ (330 < 130) from by decide]
  refine ⟨hpre, ?_, ?_⟩
  · simp [shaderInit, hpre]
  · simp [shaderInit]

/-- C5 witness: stage "geometry" on an unversioned source. -/
theorem preprocess_unsupported_stage_witness :
    containsSub "#version".data ("void main(){}").data = false ∧
    preprocess_shader "void main(){}" "geometry" "3.3" = Except.error Err.unsupportedStage ∧
    shaderInit "void main(){}" "geometry" "3.3" true = Except.error Err.unsupportedStage ∧
    shaderInit "void main(){}" "geometry" "3.3" false
      = Except.ok ⟨"geometry", "void main(){}", none⟩ := by
  refine ⟨rfl, ?_⟩
  exact preprocess_unsupported_stage "void main(){}" "geometry" rfl
    (by decide) (by decide)

/-- C3: on the fragment source of the spec's example with version
label "4.1", the preprocessor emits the version line followed by the
declaration of `_fragColor`, renames the variable `texture` to
`texMap` in its declaration and its use, rewrites the `texture2D`
call to `texture`, and renames `gl_FragColor` to `_fragColor`; the
conjuncts check the exact output, that the output starts with the
version line immediately followed by the out-declaration, and that
the renamed and original tokens are present and absent as claimed. -/
theorem preprocess_fragment_example :
    preprocess_shader
        "varying vec4 texture; void main(){ gl_FragColor = texture2D(texture); }"
        "fragment" "4.1"
      = Except.ok
        "#version 410\nout vec4 _fragColor;in vec4 texMap; void main(){ _fragColor = texture(texMap); }\n" ∧
    (matchLit "#version 410\nout vec4 _fragColor;".data
      "#version 410\nout vec4 _fragColor;in vec4 texMap; void main(){ _fragColor = texture(texMap); }\n".data).isSome = true ∧
    containsSub "vec4 texMap;".data
      "#version 410\nout vec4 _fragColor;in vec4 texMap; void main(){ _fragColor = texture(texMap); }\n".data = true ∧
    containsSub "texture(texMap)".data
      "#version 410\nout vec4 _fragColor;in vec4 texMap; void main(){ _fragColor = texture(texMap); }\n".data = true ∧
    containsSub "gl_FragColor".data
      "#version 410\nout vec4 _fragColor;in vec4 texMap; void main(){ _fragColor = texture(texMap); }\n".data = false ∧
    containsSub "texture2D".data
      "#version 410\nout vec4 _fragColor;in vec4 texMap; void main(){ _fragColor = texture(texMap); }\n".data = false := by
  refine ⟨rfl, rfl, rfl, rfl, rfl, rfl⟩

/-- C4 counterexample: the output of `preprocess_shader` is not the
rewritten lines joined by newlines after the header — the loop
terminates every line, including the last, with a newline, so the
code's output is the claimed joined form plus one trailing newline. -/
theorem preprocess_joined_output_cex :
    preprocess_shader "void main(){}" "vertex" "3.3"
      ≠ Except.ok (specJoinedOutput "vertex" 330 "void main(){}") ∧
    preprocess_shader "void main(){}" "vertex" "3.3"
      = Except.ok (specJoinedOutput "vertex" 330 "void main(){}" ++ "\n") := by
  refine ⟨?_, rfl⟩
  decide

/-- C4 (amended): for every unversioned source and every label
resolving to a token at or above 130, for both supported stages, the
output is exactly the synthesized header line, then the
stage-specific extra declaration (fragment only), then every
rewritten source line terminated by a newline; line boundaries of the
input are preserved by the per-line rewriting and a final newline is
appended after the last line. -/
theorem preprocess_output_structure (src stage label : String) (v : Nat)
    (hlab : lookupVersion label = some v) (hge : 130 ≤ v)
    (hver : containsSub "#version".data src.data = false)
    (hstage : stage = "vertex" ∨ stage = "fragment") :
    preprocess_shader src stage label
      = Except.ok ("#version " ++ toString v ++ "\n" ++ stageExtra stage
          ++ terminatedLines (stagePatterns stage) src) := by
  unfold preprocess_shader
  rw [hlab]
  cases hstage with
  | inl h =>
    subst h
    simp [hver, show ¬ (v < 130) from Nat.not_lt.mpr hge, processLines_eq,
      stageExtra, stagePatterns, show ("vertex" : String) ≠ "fragment" from by decide,
      String.append_empty, String.append_assoc]
  | inr h =>
    subst h
    simp [hver, show ¬ (v < 130) from Nat.not_lt.mpr hge, processLines_eq,
      stageExtra, stagePatterns, show ("fragment" : String) ≠ "vertex" from by decide,
      String.append_assoc]

/-- C4 witness: a two-line vertex source under label "3.3". -/
theorem preprocess_output_structure_witness :
    lookupVersion "3.3" = some 330 ∧ 130 ≤ 330 ∧
    containsSub "#version".data ("attribute vec3 p;\nvoid main(){}").data = false ∧
    (("vertex" : String) = "vertex" ∨ ("vertex" : String) = "fragment") ∧
    preprocess_shader "attribute vec3 p;\nvoid main(){}" "vertex" "3.3"
      = Except.ok ("#version " ++ toString 330 ++ "\n" ++ stageExtra "vertex"
          ++ terminatedLines (stagePatterns "vertex") "attribute vec3 p;\nvoid main(){}") :=
  ⟨rfl, by decide, rfl, Or.inl rfl,
    preprocess_output_structure "attribute vec3 p;\nvoid main(){}" "vertex" "3.3" 330
      rfl (by decide) rfl (Or.inl rfl)⟩

/-- C7: a freshly constructed Shader carries no handle, so the `sid`
accessor fails with the not-compiled error; a successful compile (a
supported stage and a valid — per the GL contract, nonzero — handle
from `glCreateShader`) is what sets the handle, and afterwards `sid`
returns exactly that handle; `sid` is a pure read, so every later
read of the unchanged state returns the same value. -/
theorem shader_handle_lifecycle (src kind version : String) (preprocessFlag : Bool)
    (s : ShaderState) (glHandle : Nat) (glLog : String)
    (hinit : shaderInit src kind version preprocessFlag = Except.ok s)
    (hkind : kind = "vertex" ∨ kind = "fragment")
    (hhandle : glHandle ≠ 0) :
    s.shaderId = none ∧
    shaderSid s = Except.error Err.notCompiled ∧
    (shaderCompile s glHandle glLog).1.shaderId = some glHandle ∧
    shaderSid (shaderCompile s glHandle glLog).1 = Except.ok glHandle := by
  have hs : s.kind = kind ∧ s.shaderId = none := by
    unfold shaderInit at hinit
    cases preprocessFlag with
    | false =>
      simp only [Bool.false_eq_true, if_false] at hinit
      cases hinit
      exact ⟨rfl, rfl⟩
    | true =>
      simp only [if_true] at hinit
      cases hpre : preprocess_shader src kind version with
      | error e => rw [hpre] at hinit; cases hinit
      | ok processed =>
        rw [hpre] at hinit
        cases hinit
        exact ⟨rfl, rfl⟩
  have hfind : supported_shader_types.find? (fun p => p.1 == s.kind)
      = some ("vertex", GL_VERTEX_SHADER)
      ∨ supported_shader_types.find? (fun p => p.1 == s.kind)
      = some ("fragment", GL_FRAGMENT_SHADER) := by
    cases hkind with
    | inl h => exact Or.inl (by rw [hs.1, h]; rfl)
    | inr h => exact Or.inr (by rw [hs.1, h]; rfl)
  refine ⟨hs.2, ?_, ?_, ?_⟩
  · simp [shaderSid, hs.2]
  · cases hfind with
    | inl h => simp [shaderCompile, h]
    | inr h => simp [shaderCompile, h]
  · cases hfind with
    | inl h => simp [shaderCompile, h, shaderSid, hhandle]
    | inr h => simp [shaderCompile, h, shaderSid, hhandle]

/-- C7 witness: a vertex shader built without preprocessing, compiled
with GL handle 7. -/
theorem shader_handle_lifecycle_witness :
    shaderInit "void main(){}" "vertex" "2.0" false
      = Except.ok ⟨"vertex", "void main(){}", none⟩ ∧
    (("vertex" : String) = "vertex" ∨ ("vertex" : String) = "fragment") ∧
    (7 : Nat) ≠ 0 ∧
    ((⟨"vertex", "void main(){}", none⟩ : ShaderState).shaderId = none ∧
      shaderSid ⟨"vertex", "void main(){}", none⟩ = Except.error Err.notCompiled ∧
      (shaderCompile ⟨"vertex", "void main(){}", none⟩ 7 "").1.shaderId = some 7 ∧
      shaderSid (shaderCompile ⟨"vertex", "void main(){}", none⟩ 7 "").1 = Except.ok 7) :=
  ⟨rfl, Or.inl rfl, by decide,
    shader_handle_lifecycle "void main(){}" "vertex" "2.0" false
      ⟨"vertex", "void main(){}", none⟩ 7 "" rfl (Or.inl rfl) (by decide)⟩

/-- C8: on a program with no registered uniforms, registering
"fill_color" with type vec4 at the externally supplied location and
then updating it issues the vec4 update call with exactly that
location and exactly the supplied data; updating any name other than
the registered one fails with the unknown-uniform error. -/
theorem uniform_round_trip (pid : Nat) (glLocation : Int) (data : List Rat) (other : String)
    (hother : other ≠ "fill_color") :
    (update_uniform (add_uniform ⟨pid, []⟩ "fill_color" "vec4" glLocation).1
        "fill_color" data).2
      = Except.ok ⟨UniformFn.uvec4, glLocation, data⟩ ∧
    (update_uniform (add_uniform ⟨pid, []⟩ "fill_color" "vec4" glLocation).1
        other data).2
      = Except.error Err.unknownUniform := by
  have hadd : (add_uniform ⟨pid, []⟩ "fill_color" "vec4" glLocation).1
      = ⟨pid, [("fill_color", ⟨"fill_color", glLocation, UniformFn.uvec4⟩)]⟩ := rfl
  rw [hadd]
  constructor
  · rfl
  · have hbeq : (("fill_color" : String) == other) = false := by
      simp only [beq_eq_false_iff_ne, ne_eq]
      exact fun h => hother h.symm
    simp [update_uniform, List.find?, hbeq]

/-- C8 witness: location 3, data (1, 0, 0, 1), unregistered name
"missing". -/
theorem uniform_round_trip_witness :
    ("missing" : String) ≠ "fill_color" ∧
    ((update_uniform (add_uniform ⟨1, []⟩ "fill_color" "vec4" 3).1
        "fill_color" [1, 0, 0, 1]).2
      = Except.ok ⟨UniformFn.uvec4, 3, [1, 0, 0, 1]⟩ ∧
    (update_uniform (add_uniform ⟨1, []⟩ "fill_color" "vec4" 3).1
        "missing" [1, 0, 0, 1]).2
      = Except.error Err.unknownUniform) :=
  ⟨by decide, uniform_round_trip 1 3 [1, 0, 0, 1] "missing" (by decide)⟩

/-- C9: compiling a shader with a supported stage never fails because
of the diagnostic log — for every log text the compile call returns
successfully, with the offending source and the log printed when the
log is non-empty and nothing printed when it is empty. -/
theorem compile_diagnostics_advisory (s : ShaderState) (glHandle : Nat) (glLog : String)
    (hkind : s.kind = "vertex" ∨ s.kind = "fragment") :
    ∃ printed, shaderCompile s glHandle glLog
        = ({ s with shaderId := some glHandle }, Except.ok printed) ∧
      (glLog ≠ "" → printed = [s.source, glLog]) ∧
      (glLog = "" → printed = []) := by
  refine ⟨if 0 < glLog.length then [s.source, glLog] else [], ?_, ?_, ?_⟩
  · cases hkind with
    | inl h =>
      have hf : supported_shader_types.find? (fun p => p.1 == "vertex")
          = some ("vertex", GL_VERTEX_SHADER) := rfl
      simp [shaderCompile, h, hf]
    | inr h =>
      have hf : supported_shader_types.find? (fun p => p.1 == "fragment")
          = some ("fragment", GL_FRAGMENT_SHADER) := rfl
      simp [shaderCompile, h, hf]
  · intro hne
    rw [if_pos (stringLengthPos glLog hne)]
  · intro he
    subst he
    rfl

/-- C9 witness: a fragment shader whose driver log is the non-empty
text "warning: deprecated"; compilation still succeeds and the
source and log are reported. -/
theorem compile_diagnostics_advisory_witness :
    ((⟨"fragment", "void main(){}", none⟩ : ShaderState).kind = "vertex" ∨
      (⟨"fragment", "void main(){}", none⟩ : ShaderState).kind = "fragment") ∧
    (∃ printed, shaderCompile ⟨"fragment", "void main(){}", none⟩ 3 "warning: deprecated"
        = ({ (⟨"fragment", "void main(){}", none⟩ : ShaderState) with shaderId := some 3 },
            Except.ok printed) ∧
      ("warning: deprecated" ≠ "" →
        printed = [(⟨"fragment", "void main(){}", none⟩ : ShaderState).source,
          "warning: deprecated"]) ∧
      ("warning: deprecated" = "" → printed = [])) :=
  ⟨Or.inr rfl,
    compile_diagnostics_advisory ⟨"fragment", "void main(){}", none⟩ 3
      "warning: deprecated" (Or.inr rfl)⟩

/-- C10: failing uniform operations leave the program state — in
particular the uniform-binding map — unchanged: registering any name
whatsoever (registered or not) with an unrecognized data type fails
before inserting or overwriting any binding, and updating an
unregistered name fails without touching the map, so every
registered binding and its stored location survive either failed
call unchanged. -/
theorem uniform_failure_preserves_map (p : ProgramState) (addName updName dtype : String)
    (glLocation : Int) (data : List Rat)
    (hdtype : uniform_function_map.find? (fun q => q.1 == dtype) = none)
    (hname : p.uniforms.find? (fun q => q.1 == updName) = none) :
    add_uniform p addName dtype glLocation = (p, some Err.unsupportedUniformType) ∧
    update_uniform p updName data = (p, Except.error Err.unknownUniform) := by
  constructor
  · unfold add_uniform
    rw [hdtype]
  · unfold update_uniform
    rw [hname]

/-- C10 witness: a program that has "fill_color" registered; a
failing re-registration of the already-registered name "fill_color"
with the unrecognized type "vec3" and a failing update of the
unregistered name "missing" both return the program state — with the
"fill_color" binding and its location intact — unchanged. -/
theorem uniform_failure_preserves_map_witness :
    uniform_function_map.find? (fun q => q.1 == "vec3") = none ∧
    (⟨1, [("fill_color", ⟨"fill_color", 2, UniformFn.uvec4⟩)]⟩ : ProgramState).uniforms.find?
        (fun q => q.1 == "missing") = none ∧
    (add_uniform ⟨1, [("fill_color", ⟨"fill_color", 2, UniformFn.uvec4⟩)]⟩ "fill_color" "vec3" 5
      = (⟨1, [("fill_color", ⟨"fill_color", 2, UniformFn.uvec4⟩)]⟩,
          some Err.unsupportedUniformType) ∧
    update_uniform ⟨1, [("fill_color", ⟨"fill_color", 2, UniformFn.uvec4⟩)]⟩ "missing" []
      = (⟨1, [("fill_color", ⟨"fill_color", 2, UniformFn.uvec4⟩)]⟩,
          Except.error Err.unknownUniform)) :=
  ⟨rfl, rfl,
    uniform_failure_preserves_map
      ⟨1, [("fill_color", ⟨"fill_color", 2, UniformFn.uvec4⟩)]⟩ "fill_color" "missing"
      "vec3" 5 [] rfl rfl⟩

end P5Shader
